import Mathlib

/-!
# Verification of `langchain/client/runner_utils.py`

A shallow embedding of the batch runner in `src/langchain/client/runner_utils.py`:
input adapters (`_get_prompts`, `_get_messages`), the single-model invokers
(`run_llm`, `_arun_llm`), the repetition loop (`run_llm_or_chain`,
`_arun_llm_or_chain`), the batch runners (`run_on_examples`, `arun_on_examples`)
and the synchronization skeleton of `_gather_with_concurrency`.

Python dictionaries are modelled as association lists with distinct keys,
Python runtime values as the inductive `PyVal`, and raised exceptions as the
`Except` monad with an explicit exception-class tag (`PyErr`), since the code
distinguishes `except InputFormatError` from a bare `except Exception`.
External collaborators (the model's `generate`, the chain call) are oracle
functions supplied as parameters; an oracle indexed by the attempt number
models the fresh observation each repeated call makes of the outside world.
-/

namespace RunnerUtils

/-- A Python runtime value, restricted to the shapes the runner inspects:
strings, integers, lists and string-keyed dicts. -/
inductive PyVal where
  | str (s : String)
  | int (n : Int)
  | list (xs : List PyVal)
  | dict (kvs : List (String × PyVal))

/-- A Python input record (`Dict[str, Any]`), modelled as an association list;
a real `dict` has pairwise distinct keys. -/
abbrev Record := List (String × PyVal)

/-- `record[k]` / `k in record`: the value stored under key `k`, if any. -/
def rlookup (r : Record) (k : String) : Option PyVal :=
  (r.find? (fun p => p.1 == k)).map Prod.snd

/-- The exception classes the runner distinguishes: its own `InputFormatError`,
Python's `ValueError` (raised for an unsupported LLM type), and any other
exception escaping a collaborator.  The payload is `str(e)`. -/
inductive PyErr where
  | inputFormatError (msg : String)
  | valueError (msg : String)
  | otherError (msg : String)
deriving DecidableEq

/-- `str(e)`: the message carried by the exception. -/
def PyErr.str : PyErr → String
  | .inputFormatError m => m
  | .valueError m => m
  | .otherError m => m

/-- `isinstance(e, InputFormatError)` — the guard of `except InputFormatError`. -/
def PyErr.isInputFormatError : PyErr → Bool
  | .inputFormatError _ => true
  | _ => false

/-- The exception class alone, forgetting the message. -/
inductive ErrKind where
  | inputFormat
  | value
  | other
deriving DecidableEq

def PyErr.kind : PyErr → ErrKind
  | .inputFormatError _ => .inputFormat
  | .valueError _ => .value
  | .otherError _ => .other

/-- A computation's outcome up to exception messages: which class was raised,
or the returned value. -/
def resShape (r : Except PyErr β) : Except ErrKind β :=
  r.mapError PyErr.kind

/-- `isinstance(v, str)` -/
def PyVal.isStr : PyVal → Bool
  | .str _ => true
  | _ => false

/-- `isinstance(v, dict)` -/
def PyVal.isDict : PyVal → Bool
  | .dict _ => true
  | _ => false

/-- `isinstance(v, list)` -/
def PyVal.isList : PyVal → Bool
  | .list _ => true
  | _ => false

/-- The string held by a string value (unused default for other shapes;
only applied under an `isStr` guard). -/
def PyVal.asStr : PyVal → String
  | .str s => s
  | _ => ""

/-- `isinstance(v, list) and all(isinstance(i, str) for i in v)`, returning the
strings when the check passes. -/
def PyVal.asStrings : PyVal → Option (List String)
  | .list xs => if xs.all isStr then some (xs.map asStr) else none
  | _ => none

/-- `_get_prompts` (runner_utils.py lines 50-95): extract a list of prompt
strings from an input record, raising `InputFormatError` on any other shape. -/
def _get_prompts (inputs : Record) : Except PyErr (List String) :=
  if inputs.isEmpty then
    .error (.inputFormatError "Inputs should not be empty.")
  else
    match rlookup inputs "prompt" with
    | some v =>
      match v with
      | .str s => .ok [s]
      | _ => .error (.inputFormatError "Expected string for prompt")
    | none =>
      match rlookup inputs "prompts" with
      | some v =>
        match v.asStrings with
        | some l => .ok l
        | none => .error (.inputFormatError "Expected list of strings for prompts")
      | none =>
        match inputs with
        | [(_, PyVal.str s)] => .ok [s]
        | [(_, v)] =>
          match v.asStrings with
          | some l => .ok l
          | none => .error (.inputFormatError "LLM Run expects string prompt input.")
        | _ => .error (.inputFormatError "LLM Run expects prompt or prompts in inputs.")

/-- A chat message: role-tagged content. -/
structure Message where
  role : String
  content : String
deriving DecidableEq

/-- Modelled from the spec: the message deserializer used by
`messages_from_dict` (defined in `langchain.schema`, which is not under
`src/`) turns one message-dict into a typed, role-tagged message and rejects
any other shape with a non-`InputFormatError` exception. -/
def message_from_dict (v : PyVal) : Except PyErr Message :=
  match v with
  | .dict kvs =>
    match (rlookup kvs "role"), (rlookup kvs "content") with
    | some (.str r), some (.str c) => .ok { role := r, content := c }
    | _, _ => .error (.valueError "Got unexpected message dict")
  | _ => .error (.valueError "Expected message dict")

/-- Modelled from the spec: `messages_from_dict` (from `langchain.schema`, not
under `src/`) deserializes a list of message-dicts into typed messages. -/
def messages_from_dict (v : PyVal) : Except PyErr (List Message) :=
  match v with
  | .list xs => xs.mapM message_from_dict
  | _ => .error (.valueError "Expected list of message dicts")

/-- Classification of the source value in `_get_messages` (lines 119-132): a
list of dicts is promoted to a single batch, a list of lists is one batch per
element, anything else raises `InputFormatError`. -/
def classifyMessages (single_input : PyVal) : Except PyErr (List (List Message)) :=
  match single_input with
  | .list xs =>
    if xs.all PyVal.isDict then
      (messages_from_dict (.list xs)).map (fun ms => [ms])
    else if xs.all PyVal.isList then
      xs.mapM messages_from_dict
    else
      .error (.inputFormatError "Chat Run expects list-of-dict or list-of-list messages input.")
  | _ => .error (.inputFormatError "Chat Run expects list-of-dict or list-of-list messages input.")

/-- `_get_messages` (runner_utils.py lines 98-132): extract chat message
batches from an input record, raising `InputFormatError` on shape mismatch. -/
def _get_messages (inputs : Record) : Except PyErr (List (List Message)) :=
  if inputs.isEmpty then
    .error (.inputFormatError "Inputs should not be empty.")
  else
    match rlookup inputs "messages" with
    | some single_input => classifyMessages single_input
    | none =>
      match inputs with
      | [(_, v)] => classifyMessages v
      | _ => .error (.inputFormatError "Chat Run expects messages in inputs.")

/-- Modelled from the spec: `get_buffer_string` (from `langchain.schema`, not
under `src/`) flattens a message sequence into a single role-prefixed
transcript string. -/
def get_buffer_string (msgs : List Message) : String :=
  String.intercalate "\n" (msgs.map (fun m => m.role ++ ": " ++ m.content))

/-- `HumanMessage(content=prompt)`: a single user-role message. -/
def HumanMessage (content : String) : Message :=
  { role := "Human", content := content }

/-- Which concrete language-model class the task instance is: `BaseLLM`,
`BaseChatModel`, or a `BaseLanguageModel` that is neither (the unsupported
shape rejected with `ValueError`). -/
inductive LLMKind where
  | baseLLM
  | chatModel
  | otherLM
deriving DecidableEq

/-- A callback handler as the repetition loop sees it: whether it has an
`example_id` attribute (`hasattr`) and, if so, its current value. -/
structure Handler where
  hasExampleId : Bool
  example_id : Option String
deriving DecidableEq

/-- The first positional argument of one `llm.generate` / `llm.agenerate`
call: a prompt list or a message-batch list. -/
inductive GenInput where
  | prompts (ps : List String)
  | messages (ms : List (List Message))
deriving DecidableEq

/-- One observed call to the model's batch-generate operation: the resolved
input and the keyword arguments actually passed. `tags = none` means the
`tags` keyword was omitted (so Python's default `None` applies). -/
structure GenCall where
  input : GenInput
  callbacks : List Handler
  tags : Option (List String)
deriving DecidableEq

/-- The outcome of `run_llm` / `_arun_llm`: the generate calls that were
issued, in order, and the returned value or raised exception. -/
structure LLMRun (α : Type) where
  calls : List GenCall
  result : Except PyErr α

/-- `run_llm` (runner_utils.py lines 384-428), the synchronous invoker.
`gen` is the external model's `generate` observed as an oracle from resolved
input to outcome.  The `try` block covers both input resolution and the
generate call, so an `InputFormatError` from either triggers the fallback.
Note the source's BaseLLM fallback calls
`llm.generate(buffer_strings, callbacks=callbacks)` WITHOUT `tags`. -/
def run_llm (gen : GenInput → Except PyErr α) (kind : LLMKind) (inputs : Record)
    (callbacks : List Handler) (tags : Option (List String)) : LLMRun α :=
  match kind with
  | .baseLLM =>
    let attempt : LLMRun α :=
      match _get_prompts inputs with
      | .ok llm_prompts =>
        { calls := [⟨.prompts llm_prompts, callbacks, tags⟩],
          result := gen (.prompts llm_prompts) }
      | .error e => { calls := [], result := .error e }
    match attempt.result with
    | .error e =>
      if e.isInputFormatError then
        let fallback : LLMRun α :=
          match _get_messages inputs with
          | .ok llm_messages =>
            let buffer_strings := llm_messages.map get_buffer_string
            { calls := [⟨.prompts buffer_strings, callbacks, none⟩],
              result := gen (.prompts buffer_strings) }
          | .error e2 => { calls := [], result := .error e2 }
        { calls := attempt.calls ++ fallback.calls, result := fallback.result }
      else attempt
    | .ok _ => attempt
  | .chatModel =>
    let attempt : LLMRun α :=
      match _get_messages inputs with
      | .ok messages =>
        { calls := [⟨.messages messages, callbacks, tags⟩],
          result := gen (.messages messages) }
      | .error e => { calls := [], result := .error e }
    match attempt.result with
    | .error e =>
      if e.isInputFormatError then
        let fallback : LLMRun α :=
          match _get_prompts inputs with
          | .ok prompts =>
            let converted_messages := prompts.map (fun p => [HumanMessage p])
            { calls := [⟨.messages converted_messages, callbacks, tags⟩],
              result := gen (.messages converted_messages) }
          | .error e2 => { calls := [], result := .error e2 }
        { calls := attempt.calls ++ fallback.calls, result := fallback.result }
      else attempt
    | .ok _ => attempt
  | .otherLM => { calls := [], result := .error (.valueError "Unsupported LLM type") }

/-- `_arun_llm` (runner_utils.py lines 135-183), the asynchronous invoker.
Identical to `run_llm` except that every branch, including the BaseLLM
fallback, passes `tags` to `agenerate`. -/
def _arun_llm (gen : GenInput → Except PyErr α) (kind : LLMKind) (inputs : Record)
    (callbacks : List Handler) (tags : Option (List String)) : LLMRun α :=
  match kind with
  | .baseLLM =>
    let attempt : LLMRun α :=
      match _get_prompts inputs with
      | .ok llm_prompts =>
        { calls := [⟨.prompts llm_prompts, callbacks, tags⟩],
          result := gen (.prompts llm_prompts) }
      | .error e => { calls := [], result := .error e }
    match attempt.result with
    | .error e =>
      if e.isInputFormatError then
        let fallback : LLMRun α :=
          match _get_messages inputs with
          | .ok llm_messages =>
            let buffer_strings := llm_messages.map get_buffer_string
            { calls := [⟨.prompts buffer_strings, callbacks, tags⟩],
              result := gen (.prompts buffer_strings) }
          | .error e2 => { calls := [], result := .error e2 }
        { calls := attempt.calls ++ fallback.calls, result := fallback.result }
      else attempt
    | .ok _ => attempt
  | .chatModel =>
    let attempt : LLMRun α :=
      match _get_messages inputs with
      | .ok messages =>
        { calls := [⟨.messages messages, callbacks, tags⟩],
          result := gen (.messages messages) }
      | .error e => { calls := [], result := .error e }
    match attempt.result with
    | .error e =>
      if e.isInputFormatError then
        let fallback : LLMRun α :=
          match _get_prompts inputs with
          | .ok prompts =>
            let converted_messages := prompts.map (fun p => [HumanMessage p])
            { calls := [⟨.messages converted_messages, callbacks, tags⟩],
              result := gen (.messages converted_messages) }
          | .error e2 => { calls := [], result := .error e2 }
        { calls := attempt.calls ++ fallback.calls, result := fallback.result }
      else attempt
    | .ok _ => attempt
  | .otherLM => { calls := [], result := .error (.valueError "Unsupported LLM type") }

/-- One entry of a RepetitionBatch (`outputs.append(...)`): either the task's
output or the in-place sentinel `{"Error": str(e)}`. -/
inductive InvocationResult (α : Type) where
  | output (o : α)
  | errorRecord (msg : String)
deriving DecidableEq

/-- The body of one iteration of the repetition loop: `outputs.append(output)`
on success, `outputs.append({"Error": str(e)})` when the `except Exception`
handler fires. -/
def attemptResult (r : Except PyErr α) : InvocationResult α :=
  match r with
  | .ok o => .output o
  | .error e => .errorRecord e.str

/-- `for _ in range(n_repetitions): ...` — the repetition loop, where
`attempt k` is the outcome of everything inside the k-th iteration's `try`. -/
def repLoop (attempt : Nat → Except PyErr α) : Nat → List (InvocationResult α)
  | 0 => []
  | n + 1 => repLoop attempt n ++ [attemptResult (attempt n)]

/-- One dataset example.  The identifier is modelled directly by its canonical
string form (`str(example.id)` of the UUID). -/
structure Example where
  id : String
  inputs : Record

/-- The external collaborators of one example's unit of work, observed as
oracles indexed by the attempt number: `gen k` is what the model's
batch-generate returns on attempt `k`, and `chainCall k` is what constructing
a fresh chain (`llm_or_chain_factory()`) and invoking it on the raw record
returns on attempt `k`. -/
structure TaskEnv (α : Type) where
  gen : Nat → GenInput → Except PyErr α
  chainCall : Nat → Record → Except PyErr α

/-- The dynamic task-shape dispatch
`isinstance(llm_or_chain_factory, BaseLanguageModel)`: a language model of a
given concrete kind, or anything else (treated as a chain factory). -/
inductive Task where
  | model (kind : LLMKind)
  | chainFactory
deriving DecidableEq

/-- What the k-th iteration's `try` block of `run_llm_or_chain` computes:
`run_llm(...)` for a model, else `llm_or_chain_factory()` followed by
`chain(example.inputs, callbacks=callbacks, tags=tags)`. -/
def taskAttempt (env : TaskEnv α) (task : Task) (ex : Example)
    (tags : Option (List String)) (callbacks : List Handler) (k : Nat) :
    Except PyErr α :=
  match task with
  | .model kind => (run_llm (env.gen k) kind ex.inputs callbacks tags).result
  | .chainFactory => env.chainCall k ex.inputs

/-- What the k-th iteration's `try` block of `_arun_llm_or_chain` computes:
as `taskAttempt` but through the asynchronous `_arun_llm`. -/
def ataskAttempt (env : TaskEnv α) (task : Task) (ex : Example)
    (tags : Option (List String)) (callbacks : List Handler) (k : Nat) :
    Except PyErr α :=
  match task with
  | .model kind => (_arun_llm (env.gen k) kind ex.inputs callbacks tags).result
  | .chainFactory => env.chainCall k ex.inputs

/-- `for tracer in callbacks: if hasattr(tracer, "example_id"):
tracer.example_id = example.id` -/
def setIds (id_ : String) (hs : List Handler) : List Handler :=
  hs.map (fun h => if h.hasExampleId then { h with example_id := some id_ } else h)

/-- `previous_example_ids = [getattr(tracer, "example_id", None) for tracer in
callbacks]` -/
def savedIds (hs : List Handler) : List (Option String) :=
  hs.map (fun h => if h.hasExampleId then h.example_id else none)

/-- `for example_id, tracer in zip(previous_example_ids, callbacks):
if hasattr(tracer, "example_id"): tracer.example_id = example_id` -/
def restoreIds (prev : List (Option String)) (hs : List Handler) : List Handler :=
  (prev.zip hs).map (fun pr =>
    if pr.2.hasExampleId then { pr.2 with example_id := pr.1 } else pr.2)

/-- The callbacks list as it stands during the repetition loop: bound to the
example when `callbacks` is truthy (a non-empty list), untouched otherwise. -/
def activeHandlers (ex : Example) (callbacks : Option (List Handler)) :
    List Handler :=
  let cbs0 := callbacks.getD []
  if !cbs0.isEmpty then setIds ex.id cbs0 else cbs0

/-- What `run_llm_or_chain` / `_arun_llm_or_chain` leave behind: the appended
`outputs` list and the callback handlers' final state. -/
structure RunOutcome (α : Type) where
  outputs : List (InvocationResult α)
  handlers : List Handler

/-- The shared body of `run_llm_or_chain` (lines 431-479) and
`_arun_llm_or_chain` (lines 186-239), which differ only in the inner invoker:
save and set `example_id` on the handlers when `callbacks` is truthy, run the
repetition loop with each exception converted in place to `{"Error": ...}`,
then restore the saved ids (`if callbacks and previous_example_ids`). -/
def _llm_or_chain_body (attempt : List Handler → Nat → Except PyErr α)
    (ex : Example) (n_repetitions : Nat) (callbacks : Option (List Handler)) :
    RunOutcome α :=
  let cbs0 := callbacks.getD []
  let truthy := !cbs0.isEmpty
  let cbs1 := activeHandlers ex callbacks
  let outputs := repLoop (attempt cbs1) n_repetitions
  let handlers :=
    if truthy && !(savedIds cbs0).isEmpty then restoreIds (savedIds cbs0) cbs1
    else cbs1
  ⟨outputs, handlers⟩

/-- `run_llm_or_chain` (runner_utils.py lines 431-479). -/
def run_llm_or_chain (env : TaskEnv α) (ex : Example) (task : Task)
    (n_repetitions : Nat) (tags : Option (List String))
    (callbacks : Option (List Handler)) : RunOutcome α :=
  _llm_or_chain_body (fun cbs k => taskAttempt env task ex tags cbs k)
    ex n_repetitions callbacks

/-- `_arun_llm_or_chain` (runner_utils.py lines 186-239). -/
def _arun_llm_or_chain (env : TaskEnv α) (ex : Example) (task : Task)
    (n_repetitions : Nat) (tags : Option (List String))
    (callbacks : Option (List Handler)) : RunOutcome α :=
  _llm_or_chain_body (fun cbs k => ataskAttempt env task ex tags cbs k)
    ex n_repetitions callbacks

/-- The ResultsMap: `results: Dict[str, Any]`, keyed by `str(example.id)`,
modelled as an insertion-ordered association list. -/
abbrev ResultsMap (α : Type) := List (String × List (InvocationResult α))

/-- The key list of an association-list dict. -/
def keys (m : List (String × β)) : List String :=
  m.map Prod.fst

/-- Python dict assignment `m[k] = v`: replace in place if `k` is present,
else append. -/
def dictInsert (m : List (String × β)) (k : String) (v : β) :
    List (String × β) :=
  if k ∈ keys m then m.map (fun p => if p.1 = k then (k, v) else p)
  else m ++ [(k, v)]

/-- The per-example loop of `run_on_examples` (lines 524-534): call
`run_llm_or_chain` with the shared callbacks, store the batch under
`str(example.id)`, and thread the (mutated, then restored) handlers to the
next example.  The oracle is keyed by the example id. -/
def processList (env : String → TaskEnv α) (task : Task) (n_repetitions : Nat)
    (tags : Option (List String)) :
    List Example → List Handler → ResultsMap α → List Handler × ResultsMap α
  | [], hs, res => (hs, res)
  | e :: rest, hs, res =>
    let out := run_llm_or_chain (env e.id) e task n_repetitions tags (some hs)
    processList env task n_repetitions tags rest out.handlers
      (dictInsert res e.id out.outputs)

/-- `run_on_examples` (runner_utils.py lines 482-537), restricted to the parts
that produce the ResultsMap: a fresh `LangChainTracer` and
`EvaluatorCallbackHandler` (both carry an `example_id` attribute, initially
unset) are shared by every example, and the examples are processed one at a
time in order.  Session creation and the final `wait_for_futures` drains do
not touch the map and are not modelled. -/
def run_on_examples (env : String → TaskEnv α) (examples : List Example)
    (task : Task) (num_repetitions : Nat) (tags : Option (List String)) :
    ResultsMap α :=
  let tracer : Handler := { hasExampleId := true, example_id := none }
  let evalution_handler : Handler := { hasExampleId := true, example_id := none }
  (processList env task num_repetitions tags examples
    [tracer, evalution_handler] []).2

/-- `arun_on_examples` (runner_utils.py lines 308-381), restricted to the
parts that produce the ResultsMap.  Each `process_example` unit writes
`results[str(example.id)]` exactly once; the interleaving of the concurrent
units is modelled by folding the writes in an arbitrary completion order
(`order`, a permutation of the submitted examples in the theorems).  Each
unit's callbacks are `[cb for cb in [tracer, evaluation_handler] if cb]`,
where the pooled tracer is present iff a session name was configured. -/
def arun_on_examples (env : String → TaskEnv α) (order : List Example)
    (task : Task) (num_repetitions : Nat) (tags : Option (List String))
    (hasTracer : Bool) : ResultsMap α :=
  order.foldl (fun res e =>
    let callbacks :=
      (if hasTracer then [{ hasExampleId := true, example_id := none }] else [])
        ++ [({ hasExampleId := true, example_id := none } : Handler)]
    dictInsert res e.id
      (_arun_llm_or_chain (env e.id) e task num_repetitions tags
        (some callbacks)).outputs) []

/-- The `toPrompts` rules exactly as the spec words them (§4.1): the record
must be non-empty; a `"prompt"` key must hold a string, giving a
single-element result; else a `"prompts"` key must hold a list of strings,
used as-is; else a record with exactly one field is accepted if its value is
a string (wrapped) or a list of strings (used as-is); any other shape fails
with `InputFormatError`. -/
def toPromptsSpec (record : Record) : Except ErrKind (List String) :=
  if record.isEmpty then .error .inputFormat
  else
    match rlookup record "prompt" with
    | some v =>
      match v with
      | .str s => .ok [s]
      | _ => .error .inputFormat
    | none =>
      match rlookup record "prompts" with
      | some v =>
        match v.asStrings with
        | some l => .ok l
        | none => .error .inputFormat
      | none =>
        match record with
        | [(_, PyVal.str s)] => .ok [s]
        | [(_, v)] =>
          match v.asStrings with
          | some l => .ok l
          | none => .error .inputFormat
        | _ => .error .inputFormat

/-- The `toMessages` source-value classification as the spec words it: a list
of message-dicts is promoted to a single-batch list-of-one, a list of
lists-of-message-dicts is used directly, and any other shape fails with
`InputFormatError` (deserialization failures keep their own class). -/
def classifySpec (source : PyVal) : Except ErrKind (List (List Message)) :=
  match source with
  | .list xs =>
    if xs.all PyVal.isDict then
      (resShape (messages_from_dict (.list xs))).map (fun ms => [ms])
    else if xs.all PyVal.isList then
      resShape (xs.mapM messages_from_dict)
    else .error .inputFormat
  | _ => .error .inputFormat

/-- The `toMessages` rules exactly as the spec words them (§4.1): the record
must be non-empty; the source value is the `"messages"` field if present,
else — only if the record has exactly one field — that sole value; otherwise
fail with `InputFormatError`; the source is then classified by
`classifySpec`. -/
def toMessagesSpec (record : Record) : Except ErrKind (List (List Message)) :=
  if record.isEmpty then .error .inputFormat
  else
    match rlookup record "messages" with
    | some source => classifySpec source
    | none =>
      match record with
      | [(_, v)] => classifySpec v
      | _ => .error .inputFormat

/-- A trivial environment whose collaborators always succeed with `0`. -/
def envOk : String → TaskEnv Nat :=
  fun _ => ⟨fun _ _ => .ok 0, fun _ _ => .ok 0⟩

/-- An environment whose chain call fails on attempt `0` only. -/
def envBoom : TaskEnv Nat :=
  ⟨fun _ _ => .ok 0, fun k _ => if k == 0 then .error (.otherError "boom") else .ok 7⟩

/-- The `toPrompts`-incompatible, `toMessages`-compatible record
`{"messages": [[{"role": "Human", "content": "hi"}]]}`. -/
def chatOnlyRecord : Record :=
  [("messages", PyVal.list [PyVal.list
    [PyVal.dict [("role", PyVal.str "Human"), ("content", PyVal.str "hi")]]])]

/-- Two concrete examples with distinct identifiers. -/
def exA : Example := ⟨"id-a", []⟩

def exB : Example := ⟨"id-b", []⟩

/-- The synchronization phase of one unit of work inside
`_gather_with_concurrency` (lines 242-288): it has not yet entered the
`async with semaphore` block (`pending`), it holds the semaphore and is about
to `await tracer_queue.get()` (`admitted`), it holds a tracer and is running
`async_func` (`running`), it has executed `tracer_queue.put_nowait(tracer)` in
the `finally` but still holds the semaphore (`finishing`), or it has exited
the semaphore block (`done`). -/
inductive Phase where
  | pending
  | admitted
  | running
  | finishing
  | done
deriving DecidableEq

/-- Whether a phase holds the admission semaphore. -/
def Phase.holdsAdmission : Phase → Bool
  | .admitted => true
  | .running => true
  | .finishing => true
  | _ => false

/-- The shared synchronization state of `_gather_with_concurrency`: the phase
of each submitted unit of work and the number of tracers currently sitting in
`tracer_queue`. -/
structure GatherState where
  phases : List Phase
  freeTracers : Nat
deriving DecidableEq

/-- Semaphore holders: units inside the `async with semaphore` block. -/
def admissionCount (s : GatherState) : Nat :=
  s.phases.countP (fun p => p.holdsAdmission)

/-- In-flight task invocations: units currently executing `async_func`. -/
def runningCount (s : GatherState) : Nat :=
  s.phases.countP (fun p => p == Phase.running)

/-- One scheduler step of `_gather_with_concurrency` with concurrency limit
`n`.  A unit of work is identified by its position in the phase list; each
constructor is one synchronization action of `run_coroutine_with_semaphore`:
entering `async with semaphore` (only when fewer than `n` units hold it),
`await tracer_queue.get()` (only when the queue is non-empty),
`tracer_queue.put_nowait(tracer)` in the `finally`, and leaving the semaphore
block. -/
inductive GatherStep (n : Nat) : GatherState → GatherState → Prop where
  | acquireSem (l₁ l₂ : List Phase) (q : Nat) :
      (l₁ ++ Phase.pending :: l₂).countP (fun p => p.holdsAdmission) < n →
      GatherStep n ⟨l₁ ++ Phase.pending :: l₂, q⟩ ⟨l₁ ++ Phase.admitted :: l₂, q⟩
  | getTracer (l₁ l₂ : List Phase) (q : Nat) :
      GatherStep n ⟨l₁ ++ Phase.admitted :: l₂, q + 1⟩
        ⟨l₁ ++ Phase.running :: l₂, q⟩
  | putTracer (l₁ l₂ : List Phase) (q : Nat) :
      GatherStep n ⟨l₁ ++ Phase.running :: l₂, q⟩
        ⟨l₁ ++ Phase.finishing :: l₂, q + 1⟩
  | releaseSem (l₁ l₂ : List Phase) (q : Nat) :
      GatherStep n ⟨l₁ ++ Phase.finishing :: l₂, q⟩
        ⟨l₁ ++ Phase.done :: l₂, q⟩

/-- The state after the setup loop `for _ in range(n):
tracer_queue.put_nowait(await initializer())`: `m` units all pending and `n`
tracers queued. -/
def gatherInit (n m : Nat) : GatherState :=
  ⟨List.replicate m Phase.pending, n⟩

/-- States `_gather_with_concurrency` can reach from its initial state. -/
def GatherReachable (n m : Nat) (s : GatherState) : Prop :=
  Relation.ReflTransGen (GatherStep n) (gatherInit n m) s

/-! ## Theorems -/

/-- The repetition loop produces one entry per attempt, in attempt order. -/
theorem repLoop_eq_map (attempt : Nat → Except PyErr α) (n : Nat) :
    repLoop attempt n = (List.range n).map (fun k => attemptResult (attempt k)) := by
  induction n with
  | zero => rfl
  | succ n ih =>
    rw [repLoop, ih, List.range_succ, List.map_append]
    rfl

theorem repLoop_length (attempt : Nat → Except PyErr α) (n : Nat) :
    (repLoop attempt n).length = n := by
  rw [repLoop_eq_map]
  simp

/-- If every attempt raises the same exception, the loop fills every slot
with its `ErrorRecord`. -/
theorem repLoop_const_error (e : PyErr) (attempt : Nat → Except PyErr α)
    (h : ∀ k, attempt k = .error e) (n : Nat) :
    repLoop attempt n = List.replicate n (.errorRecord e.str) := by
  induction n with
  | zero => rfl
  | succ n ih =>
    rw [repLoop, ih, h n, List.replicate_succ']
    rfl

/-- Restoring the saved `example_id`s undoes setting them. -/
theorem restoreIds_savedIds_setIds (id_ : String) (hs : List Handler) :
    restoreIds (savedIds hs) (setIds id_ hs) = hs := by
  induction hs with
  | nil => rfl
  | cons h t ih =>
    obtain ⟨b, eid⟩ := h
    cases b <;> simp [savedIds, setIds, restoreIds] at ih ⊢ <;> exact ih

/-- `savedIds` is index-wise, so it is empty exactly when the handler list is. -/
theorem savedIds_isEmpty (hs : List Handler) :
    (savedIds hs).isEmpty = hs.isEmpty := by
  cases hs <;> rfl

/-- The repetition-loop body always hands the callbacks back in their
pre-invocation state. -/
theorem _llm_or_chain_body_handlers (attempt : List Handler → Nat → Except PyErr α)
    (ex : Example) (n : Nat) (cbs : Option (List Handler)) :
    (_llm_or_chain_body attempt ex n cbs).handlers = cbs.getD [] := by
  unfold _llm_or_chain_body activeHandlers
  cases cbs with
  | none => simp
  | some l =>
    cases l with
    | nil => simp
    | cons h t =>
      simp [savedIds_isEmpty, restoreIds_savedIds_setIds]

/-- C8: after `run_llm_or_chain` / `_arun_llm_or_chain` returns — whether the
attempts succeeded or were converted to ErrorRecords — every callback handler
carrying an `example_id` field holds the value it held before the unit of
work set it, and handlers without that field are untouched: the handler list
is restored exactly to its pre-invocation state. -/
theorem example_id_restored (env : TaskEnv α) (ex : Example) (task : Task)
    (n : Nat) (tags : Option (List String)) (cbs : Option (List Handler)) :
    (run_llm_or_chain env ex task n tags cbs).handlers = cbs.getD []
    ∧ (_arun_llm_or_chain env ex task n tags cbs).handlers = cbs.getD [] :=
  ⟨_llm_or_chain_body_handlers _ ex n cbs, _llm_or_chain_body_handlers _ ex n cbs⟩

/-- C2: for every repetition count `n`, both repetition loops return a list of
exactly `n` entries, the k-th being the `attemptResult` (task output or
ErrorRecord) of the k-th attempt. -/
theorem repetition_batch_exact (env : TaskEnv α) (ex : Example) (task : Task)
    (n : Nat) (tags : Option (List String)) (cbs : Option (List Handler)) :
    (run_llm_or_chain env ex task n tags cbs).outputs.length = n
    ∧ (run_llm_or_chain env ex task n tags cbs).outputs
        = (List.range n).map (fun k =>
            attemptResult (taskAttempt env task ex tags (activeHandlers ex cbs) k))
    ∧ (_arun_llm_or_chain env ex task n tags cbs).outputs.length = n
    ∧ (_arun_llm_or_chain env ex task n tags cbs).outputs
        = (List.range n).map (fun k =>
            attemptResult (ataskAttempt env task ex tags (activeHandlers ex cbs) k)) := by
  refine ⟨?_, ?_, ?_, ?_⟩ <;>
    simp [run_llm_or_chain, _arun_llm_or_chain, _llm_or_chain_body,
      repLoop_eq_map, repLoop_length]

/-- C3: an exception raised inside attempt `k` is converted in place to the
sentinel `ErrorRecord` in slot `k`; the loop still returns (never propagates
the exception), and every other slot `j` is still the result of its own
attempt. -/
theorem attempt_failure_isolated (env : TaskEnv α) (ex : Example) (task : Task)
    (n : Nat) (tags : Option (List String)) (cbs : Option (List Handler))
    (k : Nat) (e : PyErr) (hk : k < n)
    (hs : taskAttempt env task ex tags (activeHandlers ex cbs) k = .error e)
    (ha : ataskAttempt env task ex tags (activeHandlers ex cbs) k = .error e) :
    ((run_llm_or_chain env ex task n tags cbs).outputs[k]?
        = some (.errorRecord e.str))
    ∧ ((_arun_llm_or_chain env ex task n tags cbs).outputs[k]?
        = some (.errorRecord e.str))
    ∧ (∀ j, j < n →
        (run_llm_or_chain env ex task n tags cbs).outputs[j]?
          = some (attemptResult (taskAttempt env task ex tags (activeHandlers ex cbs) j)))
    ∧ (∀ j, j < n →
        (_arun_llm_or_chain env ex task n tags cbs).outputs[j]?
          = some (attemptResult (ataskAttempt env task ex tags (activeHandlers ex cbs) j))) := by
  have hrun : ∀ j, j < n →
      (run_llm_or_chain env ex task n tags cbs).outputs[j]?
        = some (attemptResult (taskAttempt env task ex tags (activeHandlers ex cbs) j)) := by
    intro j hj
    simp [run_llm_or_chain, _llm_or_chain_body, repLoop_eq_map,
      List.getElem?_map, List.getElem?_range, hj]
  have harun : ∀ j, j < n →
      (_arun_llm_or_chain env ex task n tags cbs).outputs[j]?
        = some (attemptResult (ataskAttempt env task ex tags (activeHandlers ex cbs) j)) := by
    intro j hj
    simp [_arun_llm_or_chain, _llm_or_chain_body, repLoop_eq_map,
      List.getElem?_map, List.getElem?_range, hj]
  refine ⟨?_, ?_, hrun, harun⟩
  · rw [hrun k hk, hs]
    rfl
  · rw [harun k hk, ha]
    rfl

theorem attempt_failure_isolated_witness :
    (0 < 2)
    ∧ (taskAttempt envBoom Task.chainFactory exA none
        (activeHandlers exA (some [Handler.mk true none])) 0
          = .error (.otherError "boom"))
    ∧ (ataskAttempt envBoom Task.chainFactory exA none
        (activeHandlers exA (some [Handler.mk true none])) 0
          = .error (.otherError "boom"))
    ∧ ((run_llm_or_chain envBoom exA Task.chainFactory 2 none
        (some [Handler.mk true none])).outputs[0]?
          = some (.errorRecord "boom")) :=
  ⟨by decide, rfl, rfl,
    (attempt_failure_isolated envBoom exA Task.chainFactory 2 none
      (some [Handler.mk true none]) 0 (.otherError "boom")
      (by decide) rfl rfl).1⟩

/-- C4 counterexample: a task that is a `BaseLanguageModel` of a shape that is
neither `BaseLLM` nor `BaseChatModel` is NOT fatal to the batch: the
`ValueError` it raises is caught by the per-attempt handler and the batch
returns a ResultsMap containing `ErrorRecord` entries. -/
theorem unsupported_llm_recorded_per_item :
    run_on_examples envOk [exA] (Task.model LLMKind.otherLM) 1 none
      = [("id-a", [.errorRecord "Unsupported LLM type"])] := by
  rfl

/-- C4 amended: the `ValueError` for an unsupported language-model shape is
raised inside the per-attempt `try`, so every attempt slot of every example
becomes the ErrorRecord `{"Error": "Unsupported LLM type ..."}` and nothing
is raised to the caller. -/
theorem unsupported_llm_per_item_errors (env : TaskEnv α) (ex : Example)
    (n : Nat) (tags : Option (List String)) (cbs : Option (List Handler)) :
    (run_llm_or_chain env ex (Task.model LLMKind.otherLM) n tags cbs).outputs
      = List.replicate n (.errorRecord "Unsupported LLM type")
    ∧ (_arun_llm_or_chain env ex (Task.model LLMKind.otherLM) n tags cbs).outputs
      = List.replicate n (.errorRecord "Unsupported LLM type") := by
  constructor <;>
    exact repLoop_const_error (.valueError "Unsupported LLM type") _
      (fun k => rfl) n

/-- C7: the dual-mode resolution policy itself is implemented, but the
synchronous `run_llm`'s BaseLLM fallback branch calls
`llm.generate(buffer_strings, callbacks=callbacks)` WITHOUT the configured
`tags` (runner_utils.py line 413), while the asynchronous `_arun_llm` passes
`tags` in the same branch (line 166): on a record resolvable only as
messages, the sync invoker issues its single generate call with no tags. -/
theorem run_llm_fallback_drops_tags :
    ((run_llm (fun _ => Except.ok (0 : Nat)) LLMKind.baseLLM chatOnlyRecord
        [] (some ["tag1"])).calls
      = [⟨GenInput.prompts ["Human: hi"], [], none⟩])
    ∧ ((_arun_llm (fun _ => Except.ok (0 : Nat)) LLMKind.baseLLM chatOnlyRecord
        [] (some ["tag1"])).calls
      = [⟨GenInput.prompts ["Human: hi"], [], some ["tag1"]⟩]) :=
  ⟨rfl, rfl⟩

/-- C10: both adapters accept an empty resolved source list: a single-field
record holding `[]` yields the empty prompt list, and `{"messages": []}` is
classified as a list of message-dicts and yields one empty message batch. -/
theorem empty_list_inputs_accepted :
    _get_prompts [("input", PyVal.list [])] = .ok []
    ∧ _get_messages [("messages", PyVal.list [])] = .ok [[]] :=
  ⟨rfl, rfl⟩

/-- Writing a fresh key appends it to the dict's key list. -/
theorem keys_dictInsert_of_not_mem (m : List (String × β)) (k : String) (v : β)
    (h : k ∉ keys m) :
    keys (dictInsert m k v) = keys m ++ [k] := by
  unfold dictInsert
  rw [if_neg h]
  simp [keys]

/-- Folding one `results[str(example.id)] = result` write per example over
pairwise-fresh identifiers appends exactly the identifiers to the key list. -/
theorem keys_foldl_dictInsert (f : Example → β) (exs : List Example) :
    ∀ res : List (String × β),
      (exs.map Example.id).Nodup →
      (∀ e ∈ exs, e.id ∉ keys res) →
      keys (exs.foldl (fun r e => dictInsert r e.id (f e)) res)
        = keys res ++ exs.map Example.id := by
  induction exs with
  | nil =>
    intro res _ _
    simp
  | cons e rest ih =>
    intro res hnd hdisj
    rw [List.map_cons, List.nodup_cons] at hnd
    have hni : e.id ∉ keys res := hdisj e (List.mem_cons_self e rest)
    have hkeys := keys_dictInsert_of_not_mem res e.id (f e) hni
    have hdisj' : ∀ e' ∈ rest, e'.id ∉ keys (dictInsert res e.id (f e)) := by
      intro e' he'
      rw [hkeys]
      simp only [List.mem_append, List.mem_singleton]
      rintro (hmem | heq)
      · exact hdisj e' (List.mem_cons_of_mem e he') hmem
      · exact hnd.1 (heq ▸ List.mem_map_of_mem Example.id he')
    rw [List.foldl_cons, ih (dictInsert res e.id (f e)) hnd.2 hdisj', hkeys,
      List.append_assoc, List.singleton_append, List.map_cons]

/-- The sequential per-example loop is a fold of dict writes with a constant
handler list: `run_llm_or_chain` always restores the shared callbacks, so
every example sees the same handler state. -/
theorem processList_eq_foldl (env : String → TaskEnv α) (task : Task) (n : Nat)
    (tags : Option (List String)) (exs : List Example) (hs : List Handler) :
    ∀ res : ResultsMap α,
      processList env task n tags exs hs res
        = (hs, exs.foldl (fun r e => dictInsert r e.id
            ((run_llm_or_chain (env e.id) e task n tags (some hs)).outputs)) res) := by
  induction exs with
  | nil =>
    intro res
    rfl
  | cons e rest ih =>
    intro res
    rw [processList, List.foldl_cons]
    have hh : (run_llm_or_chain (env e.id) e task n tags (some hs)).handlers = hs :=
      _llm_or_chain_body_handlers _ e n (some hs)
    rw [hh, ih]

/-- C1: over examples with pairwise-distinct identifiers, both the sequential
`run_on_examples` and the concurrent `arun_on_examples` (its concurrent map
writes folded in any completion order `order`) return a ResultsMap with
exactly one entry per submitted example, keyed by the canonical string form
of its identifier, so its size equals the number of examples. -/
theorem results_map_complete (env : String → TaskEnv α) (task : Task) (n : Nat)
    (tags : Option (List String)) (examples order : List Example)
    (hasTracer : Bool)
    (hnd : (examples.map Example.id).Nodup)
    (hperm : order.Perm examples) :
    keys (run_on_examples env examples task n tags) = examples.map Example.id
    ∧ (run_on_examples env examples task n tags).length = examples.length
    ∧ keys (arun_on_examples env order task n tags hasTracer)
        = order.map Example.id
    ∧ (arun_on_examples env order task n tags hasTracer).length
        = examples.length := by
  have hndo : (order.map Example.id).Nodup :=
    ((hperm.map Example.id).nodup_iff).mpr hnd
  have hseq : keys (run_on_examples env examples task n tags)
      = examples.map Example.id := by
    have hre : run_on_examples env examples task n tags
        = (processList env task n tags examples
            [{ hasExampleId := true, example_id := none },
             { hasExampleId := true, example_id := none }] []).2 := rfl
    rw [hre, processList_eq_foldl]
    simpa using keys_foldl_dictInsert _ examples [] hnd (by simp [keys])
  have hcon : keys (arun_on_examples env order task n tags hasTracer)
      = order.map Example.id := by
    unfold arun_on_examples
    simpa using keys_foldl_dictInsert _ order [] hndo (by simp [keys])
  refine ⟨hseq, ?_, hcon, ?_⟩
  · have := congrArg List.length hseq
    simpa [keys] using this
  · have := congrArg List.length hcon
    simpa [keys, hperm.length_eq] using this

theorem results_map_complete_witness :
    ((([exA, exB] : List Example).map Example.id).Nodup)
    ∧ (([exB, exA] : List Example).Perm [exA, exB])
    ∧ keys (run_on_examples envOk [exA, exB] Task.chainFactory 1 none)
        = [exA, exB].map Example.id
    ∧ keys (arun_on_examples envOk [exB, exA] Task.chainFactory 1 none true)
        = [exB, exA].map Example.id := by
  have hperm : ([exB, exA] : List Example).Perm [exA, exB] :=
    List.Perm.swap exA exB []
  have h := results_map_complete envOk Task.chainFactory 1 none [exA, exB]
    [exB, exA] true (by decide) hperm
  exact ⟨by decide, hperm, h.1, h.2.2.1⟩

/-- The inductive invariant of `_gather_with_concurrency`: at most `n` units
hold the admission semaphore, and every tracer is either in the queue or held
by exactly one running unit (`freeTracers + running = n`). -/
def GatherInv (n : Nat) (s : GatherState) : Prop :=
  admissionCount s ≤ n ∧ s.freeTracers + runningCount s = n

theorem gatherInv_init (n m : Nat) : GatherInv n (gatherInit n m) := by
  constructor
  · have hz : (List.replicate m Phase.pending).countP
        (fun p => p.holdsAdmission) = 0 := by
      rw [List.countP_eq_zero]
      intro a ha
      rw [List.eq_of_mem_replicate ha]
      decide
    simp [admissionCount, gatherInit, hz]
  · have hz : (List.replicate m Phase.pending).countP
        (fun p => p == Phase.running) = 0 := by
      rw [List.countP_eq_zero]
      intro a ha
      rw [List.eq_of_mem_replicate ha]
      decide
    simp [runningCount, gatherInit, hz]

theorem gatherStep_inv {n : Nat} {s s' : GatherState}
    (h : GatherStep n s s') (hi : GatherInv n s) : GatherInv n s' := by
  cases h with
  | acquireSem l1 l2 q hlt =>
    refine ⟨?_, ?_⟩ <;>
      simp only [GatherInv, admissionCount, runningCount, List.countP_append,
        List.countP_cons, Phase.holdsAdmission] at hi hlt ⊢ <;>
      simp_all <;> omega
  | getTracer l1 l2 q =>
    refine ⟨?_, ?_⟩ <;>
      simp only [GatherInv, admissionCount, runningCount, List.countP_append,
        List.countP_cons, Phase.holdsAdmission] at hi ⊢ <;>
      simp_all <;> omega
  | putTracer l1 l2 q =>
    refine ⟨?_, ?_⟩ <;>
      simp only [GatherInv, admissionCount, runningCount, List.countP_append,
        List.countP_cons, Phase.holdsAdmission] at hi ⊢ <;>
      simp_all <;> omega
  | releaseSem l1 l2 q =>
    refine ⟨?_, ?_⟩ <;>
      simp only [GatherInv, admissionCount, runningCount, List.countP_append,
        List.countP_cons, Phase.holdsAdmission] at hi ⊢ <;>
      simp_all <;> omega

theorem gatherReachable_inv {n m : Nat} {s : GatherState}
    (h : GatherReachable n m s) : GatherInv n s := by
  induction h with
  | refl => exact gatherInv_init n m
  | tail _ hstep ih => exact gatherStep_inv hstep ih

/-- Semaphore holders split into the three holding phases. -/
theorem countP_holds_decompose (l : List Phase) :
    l.countP (fun p => p.holdsAdmission)
      = l.countP (fun p => p == Phase.admitted)
        + l.countP (fun p => p == Phase.running)
        + l.countP (fun p => p == Phase.finishing) := by
  induction l with
  | nil => rfl
  | cons a t ih =>
    simp only [List.countP_cons, ih]
    cases a <;> simp [Phase.holdsAdmission] <;> omega

/-- C9: in every reachable state of `_gather_with_concurrency` with
concurrency level `n >= 1`, at most `n` units are executing their
`async_func` simultaneously, and whenever some unit has passed admission and
has not yet taken a tracer, `tracer_queue` is non-empty — its acquisition
never blocks. -/
theorem gather_concurrency_bound (n m : Nat) (s : GatherState)
    (hn : 1 ≤ n) (h : GatherReachable n m s) :
    runningCount s ≤ n
    ∧ (∀ l₁ l₂ : List Phase, s.phases = l₁ ++ Phase.admitted :: l₂ →
        0 < s.freeTracers) := by
  have hi := gatherReachable_inv h
  constructor
  · have h4 := hi.2
    omega
  · intro l1 l2 hp
    have h1 : 1 ≤ s.phases.countP (fun p => p == Phase.admitted) := by
      rw [hp]
      simp [List.countP_append, List.countP_cons]
      omega
    have h2 := countP_holds_decompose s.phases
    have h3 := hi.1
    have h4 := hi.2
    simp only [admissionCount, runningCount] at h2 h3 h4
    omega

theorem gather_concurrency_bound_witness :
    (1 ≤ 1)
    ∧ GatherReachable 1 2 ⟨[Phase.admitted, Phase.pending], 1⟩
    ∧ runningCount ⟨[Phase.admitted, Phase.pending], 1⟩ ≤ 1
    ∧ (∀ l₁ l₂ : List Phase,
        (GatherState.mk [Phase.admitted, Phase.pending] 1).phases
          = l₁ ++ Phase.admitted :: l₂ →
        0 < (GatherState.mk [Phase.admitted, Phase.pending] 1).freeTracers) := by
  have hstep : GatherStep 1 (gatherInit 1 2)
      ⟨[Phase.admitted, Phase.pending], 1⟩ :=
    GatherStep.acquireSem [] [Phase.pending] 1 (by decide)
  have hreach : GatherReachable 1 2 ⟨[Phase.admitted, Phase.pending], 1⟩ :=
    Relation.ReflTransGen.single hstep
  have h := gather_concurrency_bound 1 2 ⟨[Phase.admitted, Phase.pending], 1⟩
    (by decide) hreach
  exact ⟨by decide, hreach, h.1, h.2⟩

/-- `resShape` commutes with `Except.map`. -/
theorem resShape_map (x : Except PyErr γ) (f : γ → δ) :
    resShape (x.map f) = (resShape x).map f := by
  cases x <;> rfl

/-- The source-value classification of `_get_messages` matches the spec's
classification rule. -/
theorem resShape_classifyMessages (v : PyVal) :
    resShape (classifyMessages v) = classifySpec v := by
  cases v with
  | list xs =>
    unfold classifyMessages classifySpec
    by_cases h1 : xs.all PyVal.isDict
    · simp [h1, resShape_map]
    · by_cases h2 : xs.all PyVal.isList
      · simp [h1, h2]
      · simp [h1, h2, resShape, Except.mapError, PyErr.kind]
  | str s => rfl
  | int n => rfl
  | dict kvs => rfl

/-- C5: for every input record, `_get_prompts` behaves exactly as the spec's
`toPrompts` rules prescribe — same accepted records, same resulting prompt
lists, and `InputFormatError` on every rejected shape. -/
theorem get_prompts_matches_spec (r : Record) :
    resShape (_get_prompts r) = toPromptsSpec r := by
  unfold _get_prompts toPromptsSpec
  by_cases h0 : r.isEmpty
  · simp [h0, resShape, Except.mapError, PyErr.kind]
  · simp only [h0, Bool.false_eq_true, if_false]
    rcases h1 : rlookup r "prompt" with _ | v1
    · simp only [h1]
      rcases h2 : rlookup r "prompts" with _ | v2
      · simp only [h2]
        rcases r with _ | ⟨⟨k, v⟩, t⟩
        · simp at h0
        · rcases t with _ | ⟨p2, t2⟩
          · cases v with
            | str s => simp [resShape, Except.mapError, PyErr.kind]
            | int n => simp [PyVal.asStrings, resShape, Except.mapError, PyErr.kind]
            | dict kvs => simp [PyVal.asStrings, resShape, Except.mapError, PyErr.kind]
            | list xs =>
              cases h3 : xs.all PyVal.isStr <;>
                simp [PyVal.asStrings, h3, resShape, Except.mapError, PyErr.kind]
          · simp [resShape, Except.mapError, PyErr.kind]
      · simp only [h2]
        cases h3 : v2.asStrings <;> simp [h3, resShape, Except.mapError, PyErr.kind]
    · simp only [h1]
      cases v1 <;> simp [resShape, Except.mapError, PyErr.kind]

/-- C6: for every input record, `_get_messages` behaves exactly as the spec's
`toMessages` rules prescribe — same source-value selection, same
classification of list-of-dicts versus list-of-lists, and `InputFormatError`
on every rejected shape (in particular on a multi-field record without a
`"messages"` key). -/
theorem get_messages_matches_spec (r : Record) :
    resShape (_get_messages r) = toMessagesSpec r := by
  unfold _get_messages toMessagesSpec
  by_cases h0 : r.isEmpty
  · simp [h0, resShape, Except.mapError, PyErr.kind]
  · simp only [h0, Bool.false_eq_true, if_false]
    rcases h1 : rlookup r "messages" with _ | v1
    · simp only [h1]
      rcases r with _ | ⟨⟨k, v⟩, t⟩
      · simp at h0
      · rcases t with _ | ⟨p2, t2⟩
        · exact resShape_classifyMessages v
        · simp [resShape, Except.mapError, PyErr.kind]
    · simp only [h1]
      exact resShape_classifyMessages v1

end RunnerUtils
